import Mathlib

/-!
Verification of the deep-search chat application: a shallow embedding of the
chat route handlers, the chat persistence helpers, the scrape/search tool
executors and the scrape result cache, together with theorems settling the
specification claims about them.

The repository holds two versions of the POST chat route handler: the day-1
app route (`courses/.../api/chat/route.ts`, modelled as `POST1` and
`onFinishPersist`) and the deep-search route with the search/scrape tools
(modelled as `POST2`, `searchWebExecute`, `scrapePagesExecute`).  The
persistence helpers (`upsertChat`, `getChat`) come from
`server/db/chat-helpers.ts`.
-/

set_option maxHeartbeats 1000000
set_option maxRecDepth 100000

namespace AiHero

/-! ## Data model

`Msg` is the shape of an incoming/produced chat message (the `Message` type of
the ai SDK restricted to the fields the routes read: `id`, `role`, `content`,
`parts`).  `parts` is kept as an opaque string blob since the routes only copy
it.  `ChatRow` and `MsgRow` are the persisted rows of the `chats` and
`messages` tables. -/

structure Msg where
  id : String
  role : String
  content : String
  parts : String
  deriving DecidableEq, Repr

structure ChatRow where
  id : String
  userId : String
  title : String
  createdAt : Nat
  deriving DecidableEq, Repr

structure MsgRow where
  id : String
  chatId : String
  role : String
  parts : String
  order : Nat
  createdAt : Nat
  deriving DecidableEq, Repr

/-- The relational store: the `chats` table and the `messages` table. -/
structure Db where
  chats : List ChatRow
  messages : List MsgRow
  deriving DecidableEq, Repr

/-! ## chat-helpers.ts -/

/-- `upsertChat` from `server/db/chat-helpers.ts`: insert the chat row; on an
`id` conflict update only the `title` column of the conflicting row
(`onConflictDoUpdate({ target: chats.id, set: { title: chat.title } })`).
The messages table is untouched. -/
def upsertChat (db : Db) (chat : ChatRow) : Db :=
  if db.chats.any (fun r => r.id == chat.id) then
    { db with chats :=
        db.chats.map (fun r => if r.id == chat.id then { r with title := chat.title } else r) }
  else
    { db with chats := db.chats ++ [chat] }

/-- The `orderBy asc(m.order)` read of a chat's messages. -/
def sortByOrder (l : List MsgRow) : List MsgRow :=
  List.insertionSort (fun a b => a.order ≤ b.order) l

/-- `getChat` from `server/db/chat-helpers.ts`: find the chat row with the
given id owned by the given user, together with its messages ordered by
ascending `order`. -/
def getChat (db : Db) (chatId userId : String) : Option (ChatRow × List MsgRow) :=
  match db.chats.find? (fun c => c.id == chatId && c.userId == userId) with
  | none => none
  | some c => some (c, sortByOrder (db.messages.filter (fun m => m.chatId == chatId)))

/-! ## Day-1 route: persistence reconciliation (`onFinish`) -/

/-- Modelled from the spec: `appendResponseMessages` of the external ai SDK
(not part of this repository), which merges the newly produced response
messages after the original incoming message list into one ordered
sequence. -/
def appendResponseMessages (messages responseMessages : List Msg) : List Msg :=
  messages ++ responseMessages

/-- JavaScript's `array.map((x, i) => f(i, x))` starting at index `i₀`. -/
def mapWithIndex (f : Nat → α → β) : Nat → List α → List β
  | _, [] => []
  | i, a :: as => f i a :: mapWithIndex f (i + 1) as

/-- One inserted message row of the day-1 `onFinish` handler:
`{ id: msg.id || nanoid(), chatId, role, parts, order: i, createdAt: new Date() }`. -/
def msgToRow (chatId : String) (freshId : Nat → String) (now : Nat) (i : Nat)
    (msg : Msg) : MsgRow :=
  { id := if msg.id = "" then freshId i else msg.id
    chatId := chatId
    role := msg.role
    parts := msg.parts
    order := i
    createdAt := now }

/-- The day-1 route's `onFinish` persistence step: merge the incoming messages
with the response messages, delete every message row of the chat, then insert
the merged sequence with `order` assigned by array index. -/
def onFinishPersist (db : Db) (chatId : String) (incoming responseMessages : List Msg)
    (freshId : Nat → String) (now : Nat) : Db :=
  let updatedMessages := appendResponseMessages incoming responseMessages
  { db with messages :=
      db.messages.filter (fun m => m.chatId != chatId) ++
        mapWithIndex (msgToRow chatId freshId now) 0 updatedMessages }

/-! ## The POST handlers as trace-producing functions -/

structure Session where
  userId : String
  deriving DecidableEq, Repr

/-- An event written to the response data stream, in order: the sideband
`NEW_CHAT_CREATED` data event, or a chunk of model output merged from the
model stream. -/
inductive StreamEvent where
  | newChatCreated (chatId : String)
  | modelContent (chunk : String)
  deriving DecidableEq, Repr

/-- A database write performed by a handler before streaming starts.
`upsertChatHelpers` is the day-1 call into `chat-helpers.ts` (chat row only);
`upsertChatQueries` is the deep-search route's call into
`server/db/queries.ts` (chat row plus initial messages). -/
inductive DbWrite where
  | upsertChatHelpers (chatId userId title : String) (createdAt : Nat)
  | upsertChatQueries (chatId userId title : String) (messages : List Msg)
  deriving DecidableEq, Repr

/-- The observable outcome of a POST handler run: an early response status
(`none` when a stream response is returned), the database writes performed
before the stream starts, the ordered stream events, and whether the model
was invoked. -/
structure HandlerOutcome where
  status : Option Nat
  writesBeforeStream : List DbWrite
  streamEvents : List StreamEvent
  modelCalled : Bool
  deriving DecidableEq, Repr

/-- Day-1 new-chat title: `incomingMessages[0]?.content?.slice(0, 40) || "New Chat"`. -/
def post1Title (messages : List Msg) : String :=
  match messages.head? with
  | none => "New Chat"
  | some m => if m.content.take 40 = "" then "New Chat" else m.content.take 40

/-- Deep-search new-chat title:
`messages[messages.length - 1]!.content.slice(0, 50) + "..."`. -/
def post2Title (messages : List Msg) : String :=
  (match messages.getLast? with
   | none => ""
   | some m => m.content.take 50) ++ "..."

/-- The day-1 POST handler (`courses/.../api/chat/route.ts`): 401 when
unauthenticated; otherwise, when no `chatId` is supplied, mint a fresh id,
upsert the chat row with the truncated title, emit the `NEW_CHAT_CREATED`
data event, then merge the model stream; when a `chatId` is supplied, stream
directly (this version performs no ownership or empty-list check). -/
def POST1 (session : Option Session) (messages : List Msg) (chatId : Option String)
    (freshChatId : String) (now : Nat) (modelChunks : List String) : HandlerOutcome :=
  match session with
  | none => { status := some 401, writesBeforeStream := [], streamEvents := [], modelCalled := false }
  | some s =>
    match chatId with
    | none =>
      { status := none
        writesBeforeStream :=
          [DbWrite.upsertChatHelpers freshChatId s.userId (post1Title messages) now]
        streamEvents :=
          StreamEvent.newChatCreated freshChatId :: modelChunks.map StreamEvent.modelContent
        modelCalled := true }
    | some _ =>
      { status := none
        writesBeforeStream := []
        streamEvents := modelChunks.map StreamEvent.modelContent
        modelCalled := true }

/-- The deep-search POST handler (the route with the search/scrape tools):
401 when unauthenticated; 400 when the message list is empty; when no
`chatId` is supplied, mint a fresh id, upsert the chat (with the incoming
messages) under the truncated title, emit `NEW_CHAT_CREATED`, then merge the
model stream; when a `chatId` is supplied, look the chat up and return 404
unless it exists and belongs to the caller, else stream directly. -/
def POST2 (db : Db) (session : Option Session) (messages : List Msg)
    (chatId : Option String) (freshChatId : String) (modelChunks : List String) :
    HandlerOutcome :=
  match session with
  | none => { status := some 401, writesBeforeStream := [], streamEvents := [], modelCalled := false }
  | some s =>
    if messages.length = 0 then
      { status := some 400, writesBeforeStream := [], streamEvents := [], modelCalled := false }
    else
      match chatId with
      | none =>
        { status := none
          writesBeforeStream :=
            [DbWrite.upsertChatQueries freshChatId s.userId (post2Title messages) messages]
          streamEvents :=
            StreamEvent.newChatCreated freshChatId :: modelChunks.map StreamEvent.modelContent
          modelCalled := true }
      | some c =>
        match db.chats.find? (fun ch => ch.id == c) with
        | none =>
          { status := some 404, writesBeforeStream := [], streamEvents := [], modelCalled := false }
        | some chat =>
          if chat.userId == s.userId then
            { status := none
              writesBeforeStream := []
              streamEvents := modelChunks.map StreamEvent.modelContent
              modelCalled := true }
          else
            { status := some 404, writesBeforeStream := [], streamEvents := [], modelCalled := false }

/-! ## The scrape and search tools -/

/-- The per-URL outcome of the bulk crawler: `{ success: true, data }` or
`{ success: false, error }` (`CrawlSuccessResponse` / `CrawlErrorResponse`). -/
inductive CrawlOutcome where
  | ok (data : String)
  | fail (err : String)
  deriving DecidableEq, Repr

def CrawlOutcome.success : CrawlOutcome → Bool
  | .ok _ => true
  | .fail _ => false

def CrawlOutcome.data : CrawlOutcome → String
  | .ok d => d
  | .fail _ => ""

def CrawlOutcome.error : CrawlOutcome → String
  | .ok _ => ""
  | .fail e => e

/-- One element of `bulkCrawlWebsites(...).results`. -/
structure CrawlRow where
  url : String
  result : CrawlOutcome
  deriving DecidableEq, Repr

/-- The aggregate result of `bulkCrawlWebsites({ urls })`. -/
structure BulkCrawlResult where
  success : Bool
  results : List CrawlRow
  error : Option String
  deriving DecidableEq, Repr

/-- One entry of a scrapePages tool result's `results` array. -/
structure FormattedResult where
  url : String
  success : Bool
  content : Option String
  error : Option String
  deriving DecidableEq, Repr

/-- `formatCrawlResult` from the deep-search route: copy the URL and success
flag; `content` is the crawl data when the crawl succeeded (else `undefined`),
`error` is the crawl error when it failed (else `undefined`). -/
def formatCrawlResult (r : CrawlRow) : FormattedResult :=
  { url := r.url
    success := r.result.success
    content := if r.result.success then some r.result.data else none
    error := if r.result.success then none else some r.result.error }

/-- The value returned by `scrapePages.execute`. -/
structure ScrapeToolResult where
  success : Bool
  results : List FormattedResult
  summary : String
  error : Option String
  failedUrls : Option (List String)
  deriving DecidableEq, Repr

/-- The body of `scrapePages.execute` applied to the bulk crawl value: on
aggregate success return every formatted entry with the full-success summary;
otherwise return every formatted entry, the partial summary counting the
successful entries, the aggregate error and the failing URLs. -/
def scrapePagesExecute (result : BulkCrawlResult) : ScrapeToolResult :=
  if result.success then
    { success := true
      results := result.results.map formatCrawlResult
      summary := "Successfully scraped " ++ toString result.results.length ++ " pages"
      error := none
      failedUrls := none }
  else
    let successfulResults := result.results.filter (fun r => r.result.success)
    let failedResults := result.results.filter (fun r => !r.result.success)
    { success := false
      results := result.results.map formatCrawlResult
      summary := "Scraped " ++ toString successfulResults.length ++ "/" ++
        toString result.results.length ++ " pages successfully"
      error := result.error
      failedUrls := some (failedResults.map (fun r => r.url)) }

/-- The organic entries of a Serper search response. -/
structure SerperOrganicResult where
  title : String
  link : String
  snippet : String
  deriving DecidableEq, Repr

structure SerperResponse where
  organic : List SerperOrganicResult
  deriving DecidableEq, Repr

/-- One `{ title, link, snippet }` triple returned by `searchWeb.execute`. -/
structure SearchResultItem where
  title : String
  link : String
  snippet : String
  deriving DecidableEq, Repr

/-- `searchWeb.execute`: await `searchSerper` (whose outcome, value or thrown
error, is the argument) and map the organic results to title/link/snippet
triples.  There is no try/catch in the source, so an error from `searchSerper`
propagates out of `execute`. -/
def searchWebExecute (serperOutcome : Except String SerperResponse) :
    Except String (List SearchResultItem) :=
  serperOutcome.map (fun rs =>
    rs.organic.map (fun r => { title := r.title, link := r.link, snippet := r.snippet }))

/-- `scrapePages.execute`: await `cachedScrapePages` (whose outcome, value or
thrown error, is the argument) and format the bulk result.  There is no
try/catch in the source, so a thrown error propagates out of `execute`. -/
def scrapePagesExecuteE (crawlOutcome : Except String BulkCrawlResult) :
    Except String ScrapeToolResult :=
  crawlOutcome.map scrapePagesExecute

/-- The `onError` callback of `createDataStreamResponse` in the deep-search
route: every error is converted to the same generic client-facing text. -/
def onErrorMessage (_e : String) : String :=
  "Oops, an error occurred!"

/-! ## The scrape result cache -/

/-- The shared cache keyed by the tool input (the URL array). -/
structure CacheState (β : Type) where
  entries : List (List String × β)
  deriving Repr

/-- Look a key up in the cache. -/
def cacheLookup (c : CacheState β) (k : List String) : Option β :=
  (c.entries.find? (fun p => p.1 == k)).map Prod.snd

/-- The outcome of one call through the caching wrapper: the value returned
to the caller, the cache afterwards, and how many times the underlying
function was invoked during the call. -/
structure CachedCallOutcome (β : Type) where
  value : β
  cache : CacheState β
  underlyingCalls : Nat

/-- Modelled from the spec: `cacheWithRedis` from `server/redis/redis.ts`
(whose source is not included), which wraps the bulk page fetch so that a
call whose input already has a stored result returns that result from the
shared cache without re-invoking the wrapped function, and a call on a fresh
input invokes it once and stores the result.  `cachedScrapePages` is this
wrapper applied to `fun urls => bulkCrawlWebsites { urls }`. -/
def cachedScrapePages (f : List String → β) (c : CacheState β) (urls : List String) :
    CachedCallOutcome β :=
  match cacheLookup c urls with
  | some v => { value := v, cache := c, underlyingCalls := 0 }
  | none =>
    { value := f urls
      cache := { entries := (urls, f urls) :: c.entries }
      underlyingCalls := 1 }

/-! ## Helper lemmas -/

theorem scrapePagesExecute_results (bulk : BulkCrawlResult) :
    (scrapePagesExecute bulk).results = bulk.results.map formatCrawlResult := by
  unfold scrapePagesExecute
  split <;> rfl

theorem formatCrawlResult_success (r : CrawlRow) :
    (formatCrawlResult r).success = r.result.success := rfl

theorem formatCrawlResult_content_isSome (r : CrawlRow) :
    (formatCrawlResult r).content.isSome = r.result.success := by
  unfold formatCrawlResult
  cases h : r.result.success <;> simp [h]

theorem formatCrawlResult_error_isSome (r : CrawlRow) :
    (formatCrawlResult r).error.isSome = !r.result.success := by
  unfold formatCrawlResult
  cases h : r.result.success <;> simp [h]

/-! ## Claims about the scrape tool result shape -/

/-- C9: in every entry of a scrapePages tool result's `results` array, the
`content` field is present exactly when that URL's crawl succeeded (the
entry's success flag, which equals the crawl outcome's flag positionally) and
the `error` field is present exactly when it failed; no entry carries both. -/
theorem scrape_results_content_error_exclusive (bulk : BulkCrawlResult) :
    (∀ e ∈ (scrapePagesExecute bulk).results,
        e.content.isSome = e.success ∧ e.error.isSome = (!e.success) ∧
          ¬(e.content.isSome = true ∧ e.error.isSome = true)) ∧
      (scrapePagesExecute bulk).results.map (fun e => e.success) =
        bulk.results.map (fun r => r.result.success) := by
  constructor
  · intro e he
    rw [scrapePagesExecute_results] at he
    obtain ⟨r, _, rfl⟩ := List.mem_map.mp he
    refine ⟨?_, ?_, ?_⟩
    · rw [formatCrawlResult_content_isSome, formatCrawlResult_success]
    · rw [formatCrawlResult_error_isSome, formatCrawlResult_success]
    · rw [formatCrawlResult_content_isSome, formatCrawlResult_error_isSome]
      rintro ⟨h1, h2⟩
      rw [h1] at h2
      simp at h2
  · rw [scrapePagesExecute_results, List.map_map]
    rfl

/-- C9 witness: the exclusivity statement evaluated at a concrete mixed bulk
crawl result. -/
theorem scrape_results_content_error_exclusive_witness :
    (∀ e ∈ (scrapePagesExecute
        { success := false
          results := [{ url := "https://a.com", result := CrawlOutcome.ok "A" },
                      { url := "https://b.com", result := CrawlOutcome.fail "timeout" }]
          error := some "1 of 2 failed" }).results,
        e.content.isSome = e.success ∧ e.error.isSome = (!e.success) ∧
          ¬(e.content.isSome = true ∧ e.error.isSome = true)) ∧
      (scrapePagesExecute
        { success := false
          results := [{ url := "https://a.com", result := CrawlOutcome.ok "A" },
                      { url := "https://b.com", result := CrawlOutcome.fail "timeout" }]
          error := some "1 of 2 failed" }).results.map (fun e => e.success) =
        ([{ url := "https://a.com", result := CrawlOutcome.ok "A" },
          { url := "https://b.com", result := CrawlOutcome.fail "timeout" }] :
            List CrawlRow).map (fun r => r.result.success) :=
  scrape_results_content_error_exclusive _

/-- C3: a scrapePages call whose bulk crawl reports an unsuccessful aggregate
with at least one failing and at least one succeeding URL yields
`success := false`, `failedUrls` listing exactly the URLs whose per-URL crawl
failed, one formatted entry per input row with matching per-entry success
flags, and the partial-success summary; an aggregate-successful crawl yields
the full-success summary instead. -/
theorem scrapePages_partial_failure (bulk : BulkCrawlResult)
    (hagg : bulk.success = false)
    (_hfail : ∃ r ∈ bulk.results, r.result.success = false)
    (_hok : ∃ r ∈ bulk.results, r.result.success = true) :
    (scrapePagesExecute bulk).success = false ∧
      (scrapePagesExecute bulk).failedUrls =
        some ((bulk.results.filter (fun r => !r.result.success)).map (fun r => r.url)) ∧
      (scrapePagesExecute bulk).results = bulk.results.map formatCrawlResult ∧
      (scrapePagesExecute bulk).results.map (fun e => e.success) =
        bulk.results.map (fun r => r.result.success) ∧
      (scrapePagesExecute bulk).summary =
        "Scraped " ++ toString (bulk.results.filter (fun r => r.result.success)).length ++
          "/" ++ toString bulk.results.length ++ " pages successfully" ∧
      (∀ b : BulkCrawlResult, b.success = true →
        (scrapePagesExecute b).summary =
          "Successfully scraped " ++ toString b.results.length ++ " pages") := by
  refine ⟨?_, ?_, ?_, ?_, ?_, ?_⟩
  · unfold scrapePagesExecute
    rw [if_neg (by simp [hagg])]
  · unfold scrapePagesExecute
    rw [if_neg (by simp [hagg])]
  · exact scrapePagesExecute_results bulk
  · rw [scrapePagesExecute_results, List.map_map]
    rfl
  · unfold scrapePagesExecute
    rw [if_neg (by simp [hagg])]
  · intro b hb
    unfold scrapePagesExecute
    rw [if_pos (by simp [hb])]

/-- C3 witness: the partial-failure statement at a concrete two-URL crawl
with one success and one failure. -/
theorem scrapePages_partial_failure_witness :
    ({ success := false
       results := [{ url := "https://a.com", result := CrawlOutcome.ok "A" },
                   { url := "https://b.com", result := CrawlOutcome.fail "timeout" }]
       error := some "1 of 2 failed" } : BulkCrawlResult).success = false ∧
      (scrapePagesExecute
        { success := false
          results := [{ url := "https://a.com", result := CrawlOutcome.ok "A" },
                      { url := "https://b.com", result := CrawlOutcome.fail "timeout" }]
          error := some "1 of 2 failed" }).success = false ∧
      (scrapePagesExecute
        { success := false
          results := [{ url := "https://a.com", result := CrawlOutcome.ok "A" },
                      { url := "https://b.com", result := CrawlOutcome.fail "timeout" }]
          error := some "1 of 2 failed" }).failedUrls = some ["https://b.com"] ∧
      (scrapePagesExecute
        { success := false
          results := [{ url := "https://a.com", result := CrawlOutcome.ok "A" },
                      { url := "https://b.com", result := CrawlOutcome.fail "timeout" }]
          error := some "1 of 2 failed" }).summary = "Scraped 1/2 pages successfully" := by
  refine ⟨rfl, ?_, ?_, ?_⟩
  · exact (scrapePages_partial_failure _ rfl
      ⟨{ url := "https://b.com", result := CrawlOutcome.fail "timeout" }, by decide⟩
      ⟨{ url := "https://a.com", result := CrawlOutcome.ok "A" }, by decide⟩).1
  · rw [(scrapePages_partial_failure _ rfl
      ⟨{ url := "https://b.com", result := CrawlOutcome.fail "timeout" }, by decide⟩
      ⟨{ url := "https://a.com", result := CrawlOutcome.ok "A" }, by decide⟩).2.1]
    rfl
  · rw [(scrapePages_partial_failure _ rfl
      ⟨{ url := "https://b.com", result := CrawlOutcome.fail "timeout" }, by decide⟩
      ⟨{ url := "https://a.com", result := CrawlOutcome.ok "A" }, by decide⟩).2.2.2.2.1]
    rfl

/-- C5 counterexample: an error thrown by `searchSerper` is not caught within
`searchWeb.execute` — the tool call's outcome is the propagated error, not
structured failure data, refuting the claim that every tool execution failure
is caught within the tool call. -/
theorem tool_failure_not_caught_counterexample :
    (searchWebExecute (Except.error "network error")).isOk = false ∧
      searchWebExecute (Except.error "network error") = Except.error "network error" :=
  ⟨rfl, rfl⟩

/-- C5 amended: crawl failures reported by the bulk crawler as unsuccessful
result values are surfaced to the model as structured failure data (the
execute body returns normally, with the aggregate error and the failing
URLs); but neither tool's execute catches thrown errors — an error from the
underlying search or scrape call propagates out of `execute`, and only the
stream-level `onError` handler converts it to a generic client-facing text. -/
theorem tool_failures_surfaced_amended (bulk : BulkCrawlResult) (e : String) :
    (scrapePagesExecuteE (Except.ok bulk)).isOk = true ∧
      scrapePagesExecuteE (Except.ok bulk) = Except.ok (scrapePagesExecute bulk) ∧
      (bulk.success = false →
        (scrapePagesExecute bulk).error = bulk.error ∧
          (scrapePagesExecute bulk).failedUrls =
            some ((bulk.results.filter (fun r => !r.result.success)).map (fun r => r.url))) ∧
      searchWebExecute (Except.error e) = Except.error e ∧
      scrapePagesExecuteE (Except.error e) = Except.error e ∧
      onErrorMessage e = "Oops, an error occurred!" := by
  refine ⟨rfl, rfl, ?_, rfl, rfl, rfl⟩
  intro hagg
  unfold scrapePagesExecute
  rw [if_neg (by simp [hagg])]
  exact ⟨rfl, rfl⟩

/-- C5 amended witness: the amended statement at a concrete failing crawl and
a concrete error string. -/
theorem tool_failures_surfaced_amended_witness :
    (scrapePagesExecuteE (Except.ok
        { success := false
          results := [{ url := "https://b.com", result := CrawlOutcome.fail "timeout" }]
          error := some "crawl failed" })).isOk = true ∧
      (scrapePagesExecute
        { success := false
          results := [{ url := "https://b.com", result := CrawlOutcome.fail "timeout" }]
          error := some "crawl failed" }).error = some "crawl failed" ∧
      (scrapePagesExecute
        { success := false
          results := [{ url := "https://b.com", result := CrawlOutcome.fail "timeout" }]
          error := some "crawl failed" }).failedUrls = some ["https://b.com"] ∧
      onErrorMessage "boom" = "Oops, an error occurred!" := by
  refine ⟨(tool_failures_surfaced_amended _ "boom").1, ?_, ?_, (tool_failures_surfaced_amended
    { success := false
      results := [{ url := "https://b.com", result := CrawlOutcome.fail "timeout" }]
      error := some "crawl failed" } "boom").2.2.2.2.2⟩
  · exact ((tool_failures_surfaced_amended _ "boom").2.2.1 rfl).1
  · rw [((tool_failures_surfaced_amended
      { success := false
        results := [{ url := "https://b.com", result := CrawlOutcome.fail "timeout" }]
        error := some "crawl failed" } "boom").2.2.1 rfl).2]
    rfl

/-- C8: two calls through the caching wrapper with identical URL arrays yield
the same value, and the second call performs zero invocations of the
underlying bulk page fetch — it is served from the shared cache. -/
theorem cached_scrape_second_call {β : Type} (f : List String → β)
    (c : CacheState β) (urls : List String) :
    (cachedScrapePages f (cachedScrapePages f c urls).cache urls).value =
      (cachedScrapePages f c urls).value ∧
      (cachedScrapePages f (cachedScrapePages f c urls).cache urls).underlyingCalls = 0 := by
  unfold cachedScrapePages
  cases h : cacheLookup c urls with
  | some v => simp [h]
  | none =>
    have hlook : cacheLookup { entries := (urls, f urls) :: c.entries } urls = some (f urls) := by
      unfold cacheLookup
      simp [List.find?]
    simp [h, hlook]

/-- C10: when `upsertChat` hits an already existing chat id, only the `title`
column of chat rows with that id changes — every row keeps its `id`, `userId`
and `createdAt`, rows with other ids are untouched, the table's size is
unchanged, and the messages table is untouched. -/
theorem upsertChat_existing_frame (db : Db) (chat : ChatRow)
    (h : ∃ r ∈ db.chats, r.id = chat.id) :
    (upsertChat db chat).messages = db.messages ∧
      (upsertChat db chat).chats.length = db.chats.length ∧
      ∀ i (hi : i < (upsertChat db chat).chats.length) (hi' : i < db.chats.length),
        ((upsertChat db chat).chats.get ⟨i, hi⟩).id = (db.chats.get ⟨i, hi'⟩).id ∧
          ((upsertChat db chat).chats.get ⟨i, hi⟩).userId = (db.chats.get ⟨i, hi'⟩).userId ∧
          ((upsertChat db chat).chats.get ⟨i, hi⟩).createdAt =
            (db.chats.get ⟨i, hi'⟩).createdAt ∧
          ((db.chats.get ⟨i, hi'⟩).id = chat.id →
            ((upsertChat db chat).chats.get ⟨i, hi⟩).title = chat.title) ∧
          ((db.chats.get ⟨i, hi'⟩).id ≠ chat.id →
            (upsertChat db chat).chats.get ⟨i, hi⟩ = db.chats.get ⟨i, hi'⟩) := by
  have hany : db.chats.any (fun r => r.id == chat.id) = true := by
    obtain ⟨r, hr, hid⟩ := h
    exact List.any_eq_true.mpr ⟨r, hr, by simp [hid]⟩
  unfold upsertChat
  rw [if_pos hany]
  refine ⟨rfl, List.length_map _ _, ?_⟩
  intro i hi hi'
  simp only [List.get_eq_getElem, List.getElem_map]
  by_cases hc : (db.chats.get ⟨i, hi'⟩).id = chat.id
  all_goals rw [List.get_eq_getElem] at hc
  · rw [if_pos (by simp [hc])]
    exact ⟨rfl, rfl, rfl, fun _ => rfl, fun hne => absurd hc hne⟩
  · rw [if_neg (by simp [hc])]
    exact ⟨rfl, rfl, rfl, fun habs => absurd habs hc, fun _ => rfl⟩

/-- C10 witness: the frame statement at a concrete one-row chats table hit by
an upsert with the same id but a different user, title and timestamp. -/
theorem upsertChat_existing_frame_witness :
    (upsertChat
        { chats := [{ id := "c1", userId := "u1", title := "old title", createdAt := 5 }]
          messages := [{ id := "m1", chatId := "c1", role := "user", parts := "hi",
                         order := 0, createdAt := 5 }] }
        { id := "c1", userId := "u2", title := "new title", createdAt := 9 }).messages =
      [{ id := "m1", chatId := "c1", role := "user", parts := "hi",
         order := 0, createdAt := 5 }] ∧
      (upsertChat
        { chats := [{ id := "c1", userId := "u1", title := "old title", createdAt := 5 }]
          messages := [{ id := "m1", chatId := "c1", role := "user", parts := "hi",
                         order := 0, createdAt := 5 }] }
        { id := "c1", userId := "u2", title := "new title", createdAt := 9 }).chats =
      [{ id := "c1", userId := "u1", title := "new title", createdAt := 5 }] := by
  refine ⟨(upsertChat_existing_frame _ _
    ⟨{ id := "c1", userId := "u1", title := "old title", createdAt := 5 }, by decide⟩).1, ?_⟩
  rfl

/-- C2: a request by an authenticated caller with a nonempty message list and
a `chatId` that no chat row owned by the caller bears is answered with
status 404, with no database write, no model invocation and no stream
events. -/
theorem post2_unowned_chat_404 (db : Db) (s : Session) (messages : List Msg)
    (c freshChatId : String) (modelChunks : List String)
    (hmsgs : messages.length ≠ 0)
    (hown : ∀ ch ∈ db.chats, ch.id = c → ch.userId ≠ s.userId) :
    POST2 db (some s) messages (some c) freshChatId modelChunks =
      { status := some 404, writesBeforeStream := [], streamEvents := [],
        modelCalled := false } := by
  simp only [POST2]
  rw [if_neg hmsgs]
  cases hfind : db.chats.find? (fun ch => ch.id == c) with
  | none => rfl
  | some chat =>
    have hidc : chat.id = c := by
      have := List.find?_some hfind
      simpa using this
    have hmem : chat ∈ db.chats := List.mem_of_find?_eq_some hfind
    have hne : chat.userId ≠ s.userId := hown chat hmem hidc
    have hbe : (chat.userId == s.userId) = false := by simpa using hne
    simp [hbe]

/-- C2 witness: the 404 statement at a concrete store whose only chat with the
requested id belongs to another user. -/
theorem post2_unowned_chat_404_witness :
    (([{ id := "c1", userId := "u2", title := "t", createdAt := 0 }] :
        List ChatRow).length ≠ 0) ∧
      POST2
        { chats := [{ id := "c1", userId := "u2", title := "t", createdAt := 0 }]
          messages := [] }
        (some { userId := "u1" })
        [{ id := "m1", role := "user", content := "hi", parts := "" }]
        (some "c1") "fresh-id" ["chunk"] =
      { status := some 404, writesBeforeStream := [], streamEvents := [],
        modelCalled := false } :=
  ⟨by decide,
    post2_unowned_chat_404 _ _ _ _ _ _ (by decide) (by decide)⟩

/-- C7: an authenticated request whose messages array is empty is answered
with status 400, with no database write (hence no chat record created), no
model invocation and no stream events, whatever the rest of the request and
the store contain. -/
theorem post2_empty_messages_400 (db : Db) (s : Session) (chatId : Option String)
    (freshChatId : String) (modelChunks : List String) :
    POST2 db (some s) [] chatId freshChatId modelChunks =
      { status := some 400, writesBeforeStream := [], streamEvents := [],
        modelCalled := false } := by
  unfold POST2
  rfl

/-- C6: for an authenticated request with a nonempty message list and no
`chatId`, the stream's first event is the `NEW_CHAT_CREATED` data event with
the freshly minted identifier — it precedes every model content event — and
the chat row with the truncated title is written before the stream starts;
for a request that supplies a `chatId`, no `NEW_CHAT_CREATED` event is ever
emitted. -/
theorem post2_new_chat_event_first (db : Db) (s : Session) (messages : List Msg)
    (freshChatId c : String) (modelChunks : List String)
    (hmsgs : messages.length ≠ 0) :
    ((POST2 db (some s) messages none freshChatId modelChunks).streamEvents =
        StreamEvent.newChatCreated freshChatId ::
          modelChunks.map StreamEvent.modelContent ∧
      (POST2 db (some s) messages none freshChatId modelChunks).streamEvents[0]? =
        some (StreamEvent.newChatCreated freshChatId) ∧
      (∀ i chunk,
        (POST2 db (some s) messages none freshChatId modelChunks).streamEvents[i]? =
          some (StreamEvent.modelContent chunk) → 0 < i) ∧
      (POST2 db (some s) messages none freshChatId modelChunks).writesBeforeStream =
        [DbWrite.upsertChatQueries freshChatId s.userId (post2Title messages) messages]) ∧
      ∀ ev ∈ (POST2 db (some s) messages (some c) freshChatId modelChunks).streamEvents,
        ∀ id, ev ≠ StreamEvent.newChatCreated id := by
  have hpost : POST2 db (some s) messages none freshChatId modelChunks =
      { status := none
        writesBeforeStream :=
          [DbWrite.upsertChatQueries freshChatId s.userId (post2Title messages) messages]
        streamEvents :=
          StreamEvent.newChatCreated freshChatId :: modelChunks.map StreamEvent.modelContent
        modelCalled := true } := by
    simp only [POST2]
    rw [if_neg hmsgs]
  refine ⟨⟨by rw [hpost], by rw [hpost]; simp, ?_, by rw [hpost]⟩, ?_⟩
  · intro i chunk hi
    rw [hpost] at hi
    match i with
    | 0 => simp at hi
    | i + 1 => exact Nat.succ_pos i
  · intro ev hev id
    simp only [POST2] at hev
    rw [if_neg hmsgs] at hev
    rcases hfind : db.chats.find? (fun ch => ch.id == c) with _ | chat
    · rw [hfind] at hev
      simp at hev
    · rw [hfind] at hev
      by_cases hu : (chat.userId == s.userId) = true
      · simp only [hu, if_true] at hev
        obtain ⟨_, _, rfl⟩ := List.mem_map.mp hev
        intro habs
        exact StreamEvent.noConfusion habs
      · simp only [hu, if_false] at hev
        simp at hev

/-- C6 witness: the event-order statement at a concrete request. -/
theorem post2_new_chat_event_first_witness :
    (([{ id := "m1", role := "user", content := "hi", parts := "" }] :
        List Msg).length ≠ 0) ∧
      (POST2 { chats := [], messages := [] } (some { userId := "u1" })
          [{ id := "m1", role := "user", content := "hi", parts := "" }]
          none "fresh-id" ["tok1", "tok2"]).streamEvents =
        StreamEvent.newChatCreated "fresh-id" ::
          (["tok1", "tok2"].map StreamEvent.modelContent) :=
  ⟨by decide,
    ((post2_new_chat_event_first { chats := [], messages := [] } { userId := "u1" }
      [{ id := "m1", role := "user", content := "hi", parts := "" }]
      "fresh-id" "unused" ["tok1", "tok2"] (by decide)).1).1⟩

/-- C4 counterexample: with no `chatId` and the two-message incoming list
[user "Hello", assistant "World"], the deep-search handler titles the new
chat "World..." — derived from the last incoming message — which is not a
40–50-character truncation of the first user message's content "Hello"
(whose every truncation is one of "", "H", …, "Hello"). -/
theorem title_from_first_user_message_counterexample :
    (POST2 { chats := [], messages := [] } (some { userId := "u1" })
        [{ id := "m1", role := "user", content := "Hello", parts := "" },
         { id := "m2", role := "assistant", content := "World", parts := "" }]
        none "chat-1" []).writesBeforeStream =
      [DbWrite.upsertChatQueries "chat-1" "u1" "World..."
        [{ id := "m1", role := "user", content := "Hello", parts := "" },
         { id := "m2", role := "assistant", content := "World", parts := "" }]] ∧
      ∀ k, k ≤ 50 → "Hello".take k ≠ "World..." := by
  constructor
  · rfl
  · decide

/-- C4 amended: when no `chatId` is supplied the new chat's title is an
incoming message's content truncated to its first 40–50 characters, but the
two handlers differ in which message: the day-1 handler uses the FIRST
incoming message's first 40 characters (falling back to "New Chat" when that
truncation is empty), while the deep-search handler uses the LAST incoming
message's first 50 characters with "..." appended; for a single-message
incoming list both derive the title from that first user message. -/
theorem new_chat_title_amended (db : Db) (s : Session) (messages : List Msg)
    (mFirst mLast : Msg) (freshChatId : String) (now : Nat) (modelChunks : List String)
    (hfirst : messages.head? = some mFirst)
    (hlast : messages.getLast? = some mLast)
    (hne : messages.length ≠ 0)
    (hcontent : mFirst.content.take 40 ≠ "") :
    (POST1 (some s) messages none freshChatId now modelChunks).writesBeforeStream =
        [DbWrite.upsertChatHelpers freshChatId s.userId (mFirst.content.take 40) now] ∧
      (POST2 db (some s) messages none freshChatId modelChunks).writesBeforeStream =
        [DbWrite.upsertChatQueries freshChatId s.userId
          (mLast.content.take 50 ++ "...") messages] := by
  constructor
  · simp only [POST1, post1Title, hfirst]
    rw [if_neg hcontent]
  · simp only [POST2]
    rw [if_neg hne]
    simp only [post2Title, hlast]

/-- C4 amended witness: both handlers' titles at a concrete single-message
request. -/
theorem new_chat_title_amended_witness :
    (([{ id := "m1", role := "user", content := "What is the weather today?",
         parts := "" }] : List Msg).head? =
        some { id := "m1", role := "user", content := "What is the weather today?",
               parts := "" }) ∧
      (POST1 (some { userId := "u1" })
          [{ id := "m1", role := "user", content := "What is the weather today?",
             parts := "" }]
          none "fresh-id" 7 []).writesBeforeStream =
        [DbWrite.upsertChatHelpers "fresh-id" "u1" "What is the weather today?" 7] ∧
      (POST2 { chats := [], messages := [] } (some { userId := "u1" })
          [{ id := "m1", role := "user", content := "What is the weather today?",
             parts := "" }]
          none "fresh-id" []).writesBeforeStream =
        [DbWrite.upsertChatQueries "fresh-id" "u1" "What is the weather today?..."
          [{ id := "m1", role := "user", content := "What is the weather today?",
             parts := "" }]] := by
  refine ⟨rfl, ?_⟩
  have h := new_chat_title_amended { chats := [], messages := [] } { userId := "u1" }
    [{ id := "m1", role := "user", content := "What is the weather today?", parts := "" }]
    { id := "m1", role := "user", content := "What is the weather today?", parts := "" }
    { id := "m1", role := "user", content := "What is the weather today?", parts := "" }
    "fresh-id" 7 [] rfl rfl (by decide) (by decide)
  rw [h.1, h.2]
  refine ⟨?_, ?_⟩ <;> rfl

/-! ## Lemmas about the inserted message rows -/

theorem mapWithIndex_map_order (chatId : String) (freshId : Nat → String) (now : Nat) :
    ∀ (i : Nat) (l : List Msg),
      (mapWithIndex (msgToRow chatId freshId now) i l).map (fun r => r.order) =
        List.range' i l.length
  | _, [] => rfl
  | i, _ :: as => by
    simp only [mapWithIndex, List.map_cons, List.length_cons, List.range'_succ]
    exact congrArg (List.cons i) (mapWithIndex_map_order chatId freshId now (i + 1) as)

theorem mapWithIndex_map_role_parts (chatId : String) (freshId : Nat → String) (now : Nat) :
    ∀ (i : Nat) (l : List Msg),
      (mapWithIndex (msgToRow chatId freshId now) i l).map (fun r => (r.role, r.parts)) =
        l.map (fun m => (m.role, m.parts))
  | _, [] => rfl
  | i, a :: as => by
    simp only [mapWithIndex, List.map_cons]
    exact congrArg (List.cons (a.role, a.parts))
      (mapWithIndex_map_role_parts chatId freshId now (i + 1) as)

theorem mapWithIndex_chatId (chatId : String) (freshId : Nat → String) (now : Nat) :
    ∀ (i : Nat) (l : List Msg) (r : MsgRow),
      r ∈ mapWithIndex (msgToRow chatId freshId now) i l → r.chatId = chatId
  | _, [], _, h => absurd h (List.not_mem_nil _)
  | i, _ :: as, r, h => by
    rcases List.mem_cons.mp h with h | h
    · rw [h]; rfl
    · exact mapWithIndex_chatId chatId freshId now (i + 1) as r h

theorem mapWithIndex_order_ge (chatId : String) (freshId : Nat → String) (now : Nat) :
    ∀ (i : Nat) (l : List Msg) (r : MsgRow),
      r ∈ mapWithIndex (msgToRow chatId freshId now) i l → i ≤ r.order
  | _, [], _, h => absurd h (List.not_mem_nil _)
  | i, _ :: as, r, h => by
    rcases List.mem_cons.mp h with h | h
    · rw [h]; exact Nat.le.refl
    · exact Nat.le_of_succ_le (mapWithIndex_order_ge chatId freshId now (i + 1) as r h)

theorem mapWithIndex_sorted (chatId : String) (freshId : Nat → String) (now : Nat) :
    ∀ (i : Nat) (l : List Msg),
      List.Sorted (fun a b : MsgRow => a.order ≤ b.order)
        (mapWithIndex (msgToRow chatId freshId now) i l)
  | _, [] => List.sorted_nil
  | i, a :: as => by
    rw [mapWithIndex]
    refine List.sorted_cons.mpr ⟨?_, mapWithIndex_sorted chatId freshId now (i + 1) as⟩
    intro b hb
    exact Nat.le_of_succ_le (mapWithIndex_order_ge chatId freshId now (i + 1) as b hb)

/-! ## The persistence round trip -/

/-- C1: after the day-1 `onFinish` persistence step, reading the chat back via
`getChat` yields exactly the rows of the merged sequence — the incoming
message list followed by the produced response messages — in array order,
with position indices 0..n-1, the chat's previous message set having been
fully replaced (no other row of that chat remains). -/
theorem persisted_messages_roundtrip (db : Db) (chatId userId : String)
    (incoming responseMessages : List Msg) (freshId : Nat → String) (now : Nat)
    (hchat : ∃ ch ∈ db.chats, ch.id = chatId ∧ ch.userId = userId) :
    (getChat (onFinishPersist db chatId incoming responseMessages freshId now)
        chatId userId).map Prod.snd =
      some (mapWithIndex (msgToRow chatId freshId now) 0
        (appendResponseMessages incoming responseMessages)) ∧
      (onFinishPersist db chatId incoming responseMessages freshId now).messages.filter
          (fun m => m.chatId == chatId) =
        mapWithIndex (msgToRow chatId freshId now) 0
          (appendResponseMessages incoming responseMessages) ∧
      (mapWithIndex (msgToRow chatId freshId now) 0
          (appendResponseMessages incoming responseMessages)).map
          (fun r => (r.role, r.parts)) =
        (appendResponseMessages incoming responseMessages).map (fun m => (m.role, m.parts)) ∧
      (mapWithIndex (msgToRow chatId freshId now) 0
          (appendResponseMessages incoming responseMessages)).map (fun r => r.order) =
        List.range (appendResponseMessages incoming responseMessages).length ∧
      appendResponseMessages incoming responseMessages = incoming ++ responseMessages := by
  have hfilter :
      (onFinishPersist db chatId incoming responseMessages freshId now).messages.filter
          (fun m => m.chatId == chatId) =
        mapWithIndex (msgToRow chatId freshId now) 0
          (appendResponseMessages incoming responseMessages) := by
    show ((db.messages.filter (fun m => m.chatId != chatId)) ++
        mapWithIndex (msgToRow chatId freshId now) 0
          (appendResponseMessages incoming responseMessages)).filter
        (fun m => m.chatId == chatId) = _
    rw [List.filter_append]
    have h1 : (db.messages.filter (fun m => m.chatId != chatId)).filter
        (fun m => m.chatId == chatId) = [] := by
      rw [List.filter_filter]
      apply List.filter_eq_nil_iff.mpr
      intro a _
      cases hx : a.chatId == chatId <;> simp [bne, hx]
    have h2 : (mapWithIndex (msgToRow chatId freshId now) 0
        (appendResponseMessages incoming responseMessages)).filter
        (fun m => m.chatId == chatId) =
        mapWithIndex (msgToRow chatId freshId now) 0
          (appendResponseMessages incoming responseMessages) :=
      List.filter_eq_self.mpr (fun r hr => by
        simp [mapWithIndex_chatId chatId freshId now 0 _ r hr])
    rw [h1, h2, List.nil_append]
  have hfind : (db.chats.find? (fun c => c.id == chatId && c.userId == userId)).isSome := by
    rw [List.find?_isSome]
    obtain ⟨ch, hm, h1, h2⟩ := hchat
    exact ⟨ch, hm, by simp [h1, h2]⟩
  obtain ⟨c', hc'⟩ := Option.isSome_iff_exists.mp hfind
  have hget : getChat (onFinishPersist db chatId incoming responseMessages freshId now)
      chatId userId =
      some (c', sortByOrder
        ((onFinishPersist db chatId incoming responseMessages freshId now).messages.filter
          (fun m => m.chatId == chatId))) := by
    unfold getChat
    rw [show (onFinishPersist db chatId incoming responseMessages freshId now).chats =
      db.chats from rfl, hc']
  refine ⟨?_, hfilter, mapWithIndex_map_role_parts chatId freshId now 0 _, ?_, rfl⟩
  · rw [hget, hfilter]
    have hsortEq : sortByOrder (mapWithIndex (msgToRow chatId freshId now) 0
        (appendResponseMessages incoming responseMessages)) =
        mapWithIndex (msgToRow chatId freshId now) 0
          (appendResponseMessages incoming responseMessages) :=
      List.Sorted.insertionSort_eq (mapWithIndex_sorted chatId freshId now 0 _)
    rw [hsortEq]
    rfl
  · rw [mapWithIndex_map_order chatId freshId now 0, List.range_eq_range']

/-- C1 witness: the round trip at a concrete chat, incoming list and response
list. -/
theorem persisted_messages_roundtrip_witness :
    (getChat (onFinishPersist
        { chats := [{ id := "c1", userId := "u1", title := "t", createdAt := 0 }]
          messages := [{ id := "old1", chatId := "c1", role := "user", parts := "old",
                         order := 0, createdAt := 1 },
                       { id := "x1", chatId := "c9", role := "user", parts := "other",
                         order := 0, createdAt := 1 }] }
        "c1"
        [{ id := "m1", role := "user", content := "hi", parts := "p-user" }]
        [{ id := "", role := "assistant", content := "a", parts := "p-assistant" }]
        (fun i => "fresh-" ++ toString i) 7)
      "c1" "u1").map Prod.snd =
      some [{ id := "m1", chatId := "c1", role := "user", parts := "p-user",
              order := 0, createdAt := 7 },
            { id := "fresh-1", chatId := "c1", role := "assistant", parts := "p-assistant",
              order := 1, createdAt := 7 }] := by
  rw [(persisted_messages_roundtrip
    { chats := [{ id := "c1", userId := "u1", title := "t", createdAt := 0 }]
      messages := [{ id := "old1", chatId := "c1", role := "user", parts := "old",
                     order := 0, createdAt := 1 },
                   { id := "x1", chatId := "c9", role := "user", parts := "other",
                     order := 0, createdAt := 1 }] }
    "c1" "u1"
    [{ id := "m1", role := "user", content := "hi", parts := "p-user" }]
    [{ id := "", role := "assistant", content := "a", parts := "p-assistant" }]
    (fun i => "fresh-" ++ toString i) 7
    ⟨{ id := "c1", userId := "u1", title := "t", createdAt := 0 }, by decide⟩).1]
  rfl

end AiHero
